import Mathlib

/-!
Verification of the request-validation and instruction-construction pipeline
of the `super-devs-rust-server` HTTP service (src/src/handlers.rs and
src/src/dtos.rs).

The external cryptographic/protocol primitives (base58 and base64 codecs,
ed25519 signing and verification, the spl-token and system-program
instruction builders) and the repository's helper module (`crate::helper`,
whose source is not part of the sources given) are treated as an abstract
environment `Env`; the handlers are pure functions of the request and this
environment, mirroring the Rust control flow branch by branch.  HTTP status
codes are natural numbers (200, 400).
-/

/-- A Solana public key (address): a fixed-size byte value.  Its base58
string rendering is provided by the environment. -/
structure Pubkey where
  bytes : List Nat
deriving DecidableEq, Repr

/-- A Solana keypair (secret plus public key bytes). -/
structure Keypair where
  bytes : List Nat
deriving DecidableEq, Repr

/-- An account descriptor inside a built instruction (solana_sdk
AccountMeta): address plus signer and writable flags. -/
structure AccountMeta where
  pubkey : Pubkey
  is_signer : Bool
  is_writable : Bool
deriving DecidableEq, Repr

/-- A built program instruction: program id, ordered account list, opaque
payload bytes (solana_sdk Instruction). -/
structure Instruction where
  program_id : Pubkey
  accounts : List AccountMeta
  data : List Nat
deriving DecidableEq, Repr

/-- The response envelope (dtos.rs ApiResponse<T>). -/
structure ApiResponse (α : Type) where
  success : Bool
  data : Option α
  error : Option String
deriving DecidableEq, Repr

/-- dtos.rs: `ApiResponse::success(data)` — success:true, data:Some, error:None. -/
def ApiResponse.mkSuccess {α : Type} (d : α) : ApiResponse α :=
  { success := true, data := some d, error := none }

/-- dtos.rs: `ApiResponse::error(message)` — success:false, data:None, error:Some. -/
def ApiResponse.mkError {α : Type} (message : String) : ApiResponse α :=
  { success := false, data := none, error := some message }

structure KeypairData where
  pubkey : String
  secret : String
deriving DecidableEq, Repr

structure SignMessageRequest where
  message : Option String
  secret : Option String
deriving DecidableEq, Repr

structure SignMessageData where
  signature : String
  public_key : String
  message : String
deriving DecidableEq, Repr

structure VerifyMessageRequest where
  message : Option String
  signature : Option String
  pubkey : Option String
deriving DecidableEq, Repr

structure VerifyMessageData where
  valid : Bool
  message : String
  pubkey : String
deriving DecidableEq, Repr

structure CreateTokenRequest where
  mint_authority : Option String
  mint : Option String
  decimals : Option Nat
deriving DecidableEq, Repr

structure MintTokenRequest where
  mint : Option String
  destination : Option String
  authority : Option String
  amount : Option Nat
deriving DecidableEq, Repr

structure SendSolRequest where
  from_addr : Option String
  to_addr : Option String
  lamports : Option Nat
deriving DecidableEq, Repr

structure SendTokenRequest where
  destination : Option String
  mint : Option String
  owner : Option String
  amount : Option Nat
deriving DecidableEq, Repr

structure AccountInfo where
  pubkey : String
  is_signer : Bool
  is_writable : Bool
deriving DecidableEq, Repr

structure InstructionData where
  program_id : String
  accounts : List AccountInfo
  instruction_data : String
deriving DecidableEq, Repr

structure SolTransferData where
  program_id : String
  accounts : List String
  instruction_data : String
deriving DecidableEq, Repr

structure TokenAccountInfo where
  pubkey : String
  is_signer : Bool
deriving DecidableEq, Repr

structure TokenTransferData where
  program_id : String
  accounts : List TokenAccountInfo
  instruction_data : String
deriving DecidableEq, Repr

/-- The abstract environment: the external base58/base64 codecs, ed25519
primitives and instruction builders (out-of-scope collaborators per the
spec), together with the repository's helper functions `parse_pubkey` and
`keypair_from_base58` whose source module is not among the given sources.
The handlers are proved correct for every environment, so no property
below depends on a particular implementation of these collaborators. -/
structure Env where
  parse_pubkey : String → Except String Pubkey
  keypair_from_base58 : String → Except String Keypair
  pubkeyToString : Pubkey → String
  keypairPubkey : Keypair → Pubkey
  bs58encode : List Nat → String
  b64encode : List Nat → String
  b64decode : String → Option (List Nat)
  signMsg : Keypair → List Nat → List Nat
  verifySig : List Nat → List Nat → List Nat → Bool
  spl_token_id : Pubkey
  initialize_mint : Pubkey → Pubkey → Pubkey → Option Pubkey → Nat → Except Unit Instruction
  mint_to : Pubkey → Pubkey → Pubkey → Pubkey → List Pubkey → Nat → Except Unit Instruction
  system_transfer : Pubkey → Pubkey → Nat → Instruction
  get_associated_token_address : Pubkey → Pubkey → Pubkey
  token_transfer : Pubkey → Pubkey → Pubkey → Pubkey → List Pubkey → Nat → Except Unit Instruction

/-- The UTF-8 bytes of a string, as Rust `str::as_bytes` produces them. -/
def strBytes (s : String) : List Nat :=
  s.toUTF8.toList.map (fun b => b.toNat)

/-- solana_sdk `Signature::try_from(&[u8])`: succeeds exactly when the slice
has the 64-byte signature length, returning the signature bytes. -/
def signatureTryFrom (bytes : List Nat) : Option (List Nat) :=
  if bytes.length = 64 then some bytes else none

/-- Modelled from the spec: the repository's helper `instruction_to_response`
(module `crate::helper`, not among the given sources) maps a built
instruction into the wire shape — program id as string, accounts as address
plus signer and writable flags, payload as base64 (spec section 4.4). -/
def instruction_to_response (env : Env) (inst : Instruction) : InstructionData :=
  { program_id := env.pubkeyToString inst.program_id
    accounts := inst.accounts.map (fun a =>
      { pubkey := env.pubkeyToString a.pubkey
        is_signer := a.is_signer
        is_writable := a.is_writable })
    instruction_data := env.b64encode inst.data }

/-- handlers.rs `generate_keypair`: the fresh keypair drawn by
`Keypair::new()` is an input here. -/
def generate_keypair (env : Env) (keypair : Keypair) : ApiResponse KeypairData :=
  ApiResponse.mkSuccess
    { pubkey := env.pubkeyToString (env.keypairPubkey keypair)
      secret := env.bs58encode keypair.bytes }

/-- handlers.rs `sign_message`. -/
def sign_message (env : Env) (req : SignMessageRequest) :
    Nat × ApiResponse SignMessageData :=
  match req.message with
  | none => (400, ApiResponse.mkError "Missing required fields")
  | some message =>
    if message.isEmpty then (400, ApiResponse.mkError "Missing required fields")
    else
      match req.secret with
      | none => (400, ApiResponse.mkError "Missing required fields")
      | some secret =>
        if secret.isEmpty then (400, ApiResponse.mkError "Missing required fields")
        else
          match env.keypair_from_base58 secret with
          | Except.error err => (400, ApiResponse.mkError err)
          | Except.ok keypair =>
            let message_bytes := strBytes message
            let signature := env.signMsg keypair message_bytes
            (200, ApiResponse.mkSuccess
              { signature := env.b64encode signature
                public_key := env.pubkeyToString (env.keypairPubkey keypair)
                message := message })

/-- handlers.rs `verify_message`. -/
def verify_message (env : Env) (req : VerifyMessageRequest) :
    Nat × ApiResponse VerifyMessageData :=
  match req.message with
  | none => (400, ApiResponse.mkError "Missing required fields")
  | some message =>
    if message.isEmpty then (400, ApiResponse.mkError "Missing required fields")
    else
      match req.signature with
      | none => (400, ApiResponse.mkError "Missing required fields")
      | some signature_str =>
        if signature_str.isEmpty then (400, ApiResponse.mkError "Missing required fields")
        else
          match req.pubkey with
          | none => (400, ApiResponse.mkError "Missing required fields")
          | some pubkey_str =>
            if pubkey_str.isEmpty then (400, ApiResponse.mkError "Missing required fields")
            else
              match env.parse_pubkey pubkey_str with
              | Except.error err => (400, ApiResponse.mkError err)
              | Except.ok pubkey =>
                match env.b64decode signature_str with
                | none => (400, ApiResponse.mkError "Invalid base64 signature")
                | some signature_bytes =>
                  match signatureTryFrom signature_bytes with
                  | none => (400, ApiResponse.mkError "Invalid signature format")
                  | some signature =>
                    let valid := env.verifySig signature pubkey.bytes (strBytes message)
                    (200, ApiResponse.mkSuccess
                      { valid := valid
                        message := message
                        pubkey := pubkey_str })

/-- handlers.rs `create_token`, decode-and-build stage (after field
validation has extracted non-empty `mintAuthority`, `mint` and a supplied
`decimals`). -/
def createTokenBuild (env : Env) (mint_authority mint : String) (decimals : Nat) :
    Nat × ApiResponse InstructionData :=
  match env.parse_pubkey mint_authority with
  | Except.error err => (400, ApiResponse.mkError err)
  | Except.ok mint_authority_pubkey =>
    match env.parse_pubkey mint with
    | Except.error err => (400, ApiResponse.mkError err)
    | Except.ok mint_pubkey =>
      match env.initialize_mint env.spl_token_id mint_pubkey mint_authority_pubkey
          (some mint_authority_pubkey) decimals with
      | Except.error _ => (400, ApiResponse.mkError "Failed to create token instruction")
      | Except.ok instruction =>
        (200, ApiResponse.mkSuccess (instruction_to_response env instruction))

/-- handlers.rs `create_token`. -/
def create_token (env : Env) (req : CreateTokenRequest) :
    Nat × ApiResponse InstructionData :=
  match req.mint_authority with
  | none => (400, ApiResponse.mkError "Missing required fields")
  | some mint_authority =>
    if mint_authority.isEmpty then (400, ApiResponse.mkError "Missing required fields")
    else
      match req.mint with
      | none => (400, ApiResponse.mkError "Missing required fields")
      | some mint =>
        if mint.isEmpty then (400, ApiResponse.mkError "Missing required fields")
        else
          match req.decimals with
          | none => (400, ApiResponse.mkError "Missing required fields")
          | some decimals => createTokenBuild env mint_authority mint decimals

/-- handlers.rs `mint_token`, decode-and-build stage. -/
def mintTokenBuild (env : Env) (mint destination authority : String) (amount : Nat) :
    Nat × ApiResponse InstructionData :=
  match env.parse_pubkey mint with
  | Except.error e => (400, ApiResponse.mkError e)
  | Except.ok mint_pubkey =>
    match env.parse_pubkey destination with
    | Except.error e => (400, ApiResponse.mkError e)
    | Except.ok destination_pubkey =>
      match env.parse_pubkey authority with
      | Except.error e => (400, ApiResponse.mkError e)
      | Except.ok authority_pubkey =>
        match env.mint_to env.spl_token_id mint_pubkey destination_pubkey
            authority_pubkey [] amount with
        | Except.error _ => (400, ApiResponse.mkError "Failed to create mint instruction")
        | Except.ok instruction =>
          (200, ApiResponse.mkSuccess (instruction_to_response env instruction))

/-- handlers.rs `mint_token`: the four fields are filtered for presence
(non-empty string, strictly positive amount) and any `None` yields the
missing-fields error, as the Rust `filter` plus `is_none` check does. -/
def mint_token (env : Env) (req : MintTokenRequest) :
    Nat × ApiResponse InstructionData :=
  match req.mint.filter (fun s => !s.isEmpty),
        req.destination.filter (fun s => !s.isEmpty),
        req.authority.filter (fun s => !s.isEmpty),
        req.amount.filter (fun v => decide (0 < v)) with
  | some mint, some destination, some authority, some amount =>
    mintTokenBuild env mint destination authority amount
  | _, _, _, _ => (400, ApiResponse.mkError "Missing required fields")

/-- handlers.rs `send_sol`, decode-and-build stage.  The system-program
transfer builder is total: no failure branch exists after decoding. -/
def sendSolBuild (env : Env) (from_s to_s : String) (lamports : Nat) :
    Nat × ApiResponse SolTransferData :=
  match env.parse_pubkey from_s with
  | Except.error e => (400, ApiResponse.mkError e)
  | Except.ok from_pubkey =>
    match env.parse_pubkey to_s with
    | Except.error e => (400, ApiResponse.mkError e)
    | Except.ok to_pubkey =>
      let instruction := env.system_transfer from_pubkey to_pubkey lamports
      (200, ApiResponse.mkSuccess
        { program_id := env.pubkeyToString instruction.program_id
          accounts := instruction.accounts.map (fun a => env.pubkeyToString a.pubkey)
          instruction_data := env.b64encode instruction.data })

/-- handlers.rs `send_sol`. -/
def send_sol (env : Env) (req : SendSolRequest) :
    Nat × ApiResponse SolTransferData :=
  match req.from_addr.filter (fun s => !s.isEmpty),
        req.to_addr.filter (fun s => !s.isEmpty),
        req.lamports.filter (fun v => decide (0 < v)) with
  | some from_s, some to_s, some lamports => sendSolBuild env from_s to_s lamports
  | _, _, _ => (400, ApiResponse.mkError "Missing required fields")

/-- handlers.rs `send_token`, decode-and-build stage. -/
def sendTokenBuild (env : Env) (destination mint owner : String) (amount : Nat) :
    Nat × ApiResponse TokenTransferData :=
  match env.parse_pubkey mint with
  | Except.error err => (400, ApiResponse.mkError err)
  | Except.ok mint_pubkey =>
    match env.parse_pubkey owner with
    | Except.error err => (400, ApiResponse.mkError err)
    | Except.ok owner_pubkey =>
      match env.parse_pubkey destination with
      | Except.error err => (400, ApiResponse.mkError err)
      | Except.ok destination_pubkey =>
        match env.token_transfer env.spl_token_id
            (env.get_associated_token_address owner_pubkey mint_pubkey)
            (env.get_associated_token_address destination_pubkey mint_pubkey)
            owner_pubkey [] amount with
        | Except.error _ => (400, ApiResponse.mkError "Failed to create transfer instruction")
        | Except.ok instruction =>
          (200, ApiResponse.mkSuccess
            { program_id := env.pubkeyToString instruction.program_id
              accounts := instruction.accounts.map (fun acc =>
                { pubkey := env.pubkeyToString acc.pubkey
                  is_signer := acc.is_signer })
              instruction_data := env.b64encode instruction.data })

/-- handlers.rs `send_token`. -/
def send_token (env : Env) (req : SendTokenRequest) :
    Nat × ApiResponse TokenTransferData :=
  match req.destination with
  | none => (400, ApiResponse.mkError "Missing required fields")
  | some destination =>
    if destination.isEmpty then (400, ApiResponse.mkError "Missing required fields")
    else
      match req.mint with
      | none => (400, ApiResponse.mkError "Missing required fields")
      | some mint =>
        if mint.isEmpty then (400, ApiResponse.mkError "Missing required fields")
        else
          match req.owner with
          | none => (400, ApiResponse.mkError "Missing required fields")
          | some owner =>
            if owner.isEmpty then (400, ApiResponse.mkError "Missing required fields")
            else
              match req.amount with
              | none => (400, ApiResponse.mkError "Missing required fields")
              | some amount =>
                if 0 < amount then sendTokenBuild env destination mint owner amount
                else (400, ApiResponse.mkError "Missing required fields")

/-- A string field counts as present when supplied and non-empty. -/
def strPresent (o : Option String) : Bool :=
  match o with
  | none => false
  | some s => !s.isEmpty

/-- An amount field counts as present when supplied and strictly positive. -/
def amtPresent (o : Option Nat) : Bool :=
  match o with
  | none => false
  | some v => decide (0 < v)

/-- The envelope invariant: data is populated exactly when success holds,
error exactly when it does not. -/
def envelopeOk {α : Type} (r : ApiResponse α) : Prop :=
  (r.data.isSome = true ↔ r.success = true) ∧
  (r.error.isSome = true ↔ r.success = false)

/-- A concrete environment instantiating the universally quantified
theorems at executable inputs. -/
def envT : Env where
  parse_pubkey := fun s =>
    if s = "bad" then Except.error "Invalid public key" else Except.ok ⟨[s.length]⟩
  keypair_from_base58 := fun s =>
    if s = "bad" then Except.error "Invalid secret key" else Except.ok ⟨[s.length]⟩
  pubkeyToString := fun p => toString p.bytes.length
  keypairPubkey := fun k => ⟨k.bytes⟩
  bs58encode := fun _ => "fiveEight"
  b64encode := fun _ => "sixFour"
  b64decode := fun s => if s = "!" then none else some (List.replicate s.length 7)
  signMsg := fun _ _ => [1, 2, 3]
  verifySig := fun _ _ _ => true
  spl_token_id := ⟨[9]⟩
  initialize_mint := fun _ _ _ _ _ => Except.ok ⟨⟨[9]⟩, [], [5]⟩
  mint_to := fun _ _ _ _ _ _ => Except.ok ⟨⟨[9]⟩, [], [6]⟩
  system_transfer := fun _ _ _ => ⟨⟨[0]⟩, [], [4]⟩
  get_associated_token_address := fun _ _ => ⟨[7]⟩
  token_transfer := fun _ _ _ _ _ _ => Except.ok ⟨⟨[9]⟩, [], [8]⟩

theorem envelopeOk_mkSuccess {α : Type} (d : α) :
    envelopeOk (ApiResponse.mkSuccess d) := by
  simp [envelopeOk, ApiResponse.mkSuccess]

theorem envelopeOk_mkError {α : Type} (m : String) :
    envelopeOk (ApiResponse.mkError m : ApiResponse α) := by
  simp [envelopeOk, ApiResponse.mkError]

theorem signShape (env : Env) (req : SignMessageRequest) :
    (∃ d, sign_message env req = (200, ApiResponse.mkSuccess d)) ∨
    (∃ m, sign_message env req = (400, ApiResponse.mkError m)) := by
  unfold sign_message
  repeat' split
  all_goals first
  | exact Or.inl ⟨_, rfl⟩
  | exact Or.inr ⟨_, rfl⟩

theorem verifyShape (env : Env) (req : VerifyMessageRequest) :
    (∃ d, verify_message env req = (200, ApiResponse.mkSuccess d)) ∨
    (∃ m, verify_message env req = (400, ApiResponse.mkError m)) := by
  unfold verify_message
  repeat' split
  all_goals first
  | exact Or.inl ⟨_, rfl⟩
  | exact Or.inr ⟨_, rfl⟩

theorem createShape (env : Env) (req : CreateTokenRequest) :
    (∃ d, create_token env req = (200, ApiResponse.mkSuccess d)) ∨
    (∃ m, create_token env req = (400, ApiResponse.mkError m)) := by
  unfold create_token createTokenBuild
  repeat' split
  all_goals first
  | exact Or.inl ⟨_, rfl⟩
  | exact Or.inr ⟨_, rfl⟩

theorem mintShape (env : Env) (req : MintTokenRequest) :
    (∃ d, mint_token env req = (200, ApiResponse.mkSuccess d)) ∨
    (∃ m, mint_token env req = (400, ApiResponse.mkError m)) := by
  unfold mint_token mintTokenBuild
  repeat' split
  all_goals first
  | exact Or.inl ⟨_, rfl⟩
  | exact Or.inr ⟨_, rfl⟩

theorem sendSolShape (env : Env) (req : SendSolRequest) :
    (∃ d, send_sol env req = (200, ApiResponse.mkSuccess d)) ∨
    (∃ m, send_sol env req = (400, ApiResponse.mkError m)) := by
  unfold send_sol sendSolBuild
  repeat' split
  all_goals first
  | exact Or.inl ⟨_, rfl⟩
  | exact Or.inr ⟨_, rfl⟩

theorem sendTokenShape (env : Env) (req : SendTokenRequest) :
    (∃ d, send_token env req = (200, ApiResponse.mkSuccess d)) ∨
    (∃ m, send_token env req = (400, ApiResponse.mkError m)) := by
  unfold send_token sendTokenBuild
  repeat' split
  all_goals first
  | exact Or.inl ⟨_, rfl⟩
  | exact Or.inr ⟨_, rfl⟩

/-- C2: every response envelope the service can produce — the direct images
of `ApiResponse::success` and `ApiResponse::error`, and the envelope of
every handler's output — has `data` populated exactly when `success` is
true and `error` populated exactly when `success` is false. -/
theorem c2_envelope_invariant :
    (∀ (α : Type) (d : α), envelopeOk (ApiResponse.mkSuccess d)) ∧
    (∀ (α : Type) (m : String), envelopeOk (ApiResponse.mkError m : ApiResponse α)) ∧
    (∀ (env : Env) (kp : Keypair), envelopeOk (generate_keypair env kp)) ∧
    (∀ (env : Env) (req : SignMessageRequest), envelopeOk (sign_message env req).2) ∧
    (∀ (env : Env) (req : VerifyMessageRequest), envelopeOk (verify_message env req).2) ∧
    (∀ (env : Env) (req : CreateTokenRequest), envelopeOk (create_token env req).2) ∧
    (∀ (env : Env) (req : MintTokenRequest), envelopeOk (mint_token env req).2) ∧
    (∀ (env : Env) (req : SendSolRequest), envelopeOk (send_sol env req).2) ∧
    (∀ (env : Env) (req : SendTokenRequest), envelopeOk (send_token env req).2) := by
  refine ⟨fun α d => envelopeOk_mkSuccess d, fun α m => envelopeOk_mkError m,
    fun env kp => envelopeOk_mkSuccess _, ?_, ?_, ?_, ?_, ?_, ?_⟩
  all_goals intro env req
  · rcases signShape env req with ⟨d, h⟩ | ⟨m, h⟩ <;> rw [h]
    · exact envelopeOk_mkSuccess d
    · exact envelopeOk_mkError m
  · rcases verifyShape env req with ⟨d, h⟩ | ⟨m, h⟩ <;> rw [h]
    · exact envelopeOk_mkSuccess d
    · exact envelopeOk_mkError m
  · rcases createShape env req with ⟨d, h⟩ | ⟨m, h⟩ <;> rw [h]
    · exact envelopeOk_mkSuccess d
    · exact envelopeOk_mkError m
  · rcases mintShape env req with ⟨d, h⟩ | ⟨m, h⟩ <;> rw [h]
    · exact envelopeOk_mkSuccess d
    · exact envelopeOk_mkError m
  · rcases sendSolShape env req with ⟨d, h⟩ | ⟨m, h⟩ <;> rw [h]
    · exact envelopeOk_mkSuccess d
    · exact envelopeOk_mkError m
  · rcases sendTokenShape env req with ⟨d, h⟩ | ⟨m, h⟩ <;> rw [h]
    · exact envelopeOk_mkSuccess d
    · exact envelopeOk_mkError m

/-- C3: for each of the six fallible operations, the HTTP status is 200
exactly when the envelope's success flag is true, and the status is always
either 200 or 400 — no other code is reachable. -/
theorem c3_status_iff_success :
    ∀ (env : Env),
      (∀ req : SignMessageRequest,
        ((sign_message env req).1 = 200 ↔ (sign_message env req).2.success = true) ∧
        ((sign_message env req).1 = 200 ∨ (sign_message env req).1 = 400)) ∧
      (∀ req : VerifyMessageRequest,
        ((verify_message env req).1 = 200 ↔ (verify_message env req).2.success = true) ∧
        ((verify_message env req).1 = 200 ∨ (verify_message env req).1 = 400)) ∧
      (∀ req : CreateTokenRequest,
        ((create_token env req).1 = 200 ↔ (create_token env req).2.success = true) ∧
        ((create_token env req).1 = 200 ∨ (create_token env req).1 = 400)) ∧
      (∀ req : MintTokenRequest,
        ((mint_token env req).1 = 200 ↔ (mint_token env req).2.success = true) ∧
        ((mint_token env req).1 = 200 ∨ (mint_token env req).1 = 400)) ∧
      (∀ req : SendSolRequest,
        ((send_sol env req).1 = 200 ↔ (send_sol env req).2.success = true) ∧
        ((send_sol env req).1 = 200 ∨ (send_sol env req).1 = 400)) ∧
      (∀ req : SendTokenRequest,
        ((send_token env req).1 = 200 ↔ (send_token env req).2.success = true) ∧
        ((send_token env req).1 = 200 ∨ (send_token env req).1 = 400)) := by
  intro env
  refine ⟨?_, ?_, ?_, ?_, ?_, ?_⟩
  all_goals intro req
  · rcases signShape env req with ⟨d, h⟩ | ⟨m, h⟩ <;>
      rw [h] <;> simp [ApiResponse.mkSuccess, ApiResponse.mkError]
  · rcases verifyShape env req with ⟨d, h⟩ | ⟨m, h⟩ <;>
      rw [h] <;> simp [ApiResponse.mkSuccess, ApiResponse.mkError]
  · rcases createShape env req with ⟨d, h⟩ | ⟨m, h⟩ <;>
      rw [h] <;> simp [ApiResponse.mkSuccess, ApiResponse.mkError]
  · rcases mintShape env req with ⟨d, h⟩ | ⟨m, h⟩ <;>
      rw [h] <;> simp [ApiResponse.mkSuccess, ApiResponse.mkError]
  · rcases sendSolShape env req with ⟨d, h⟩ | ⟨m, h⟩ <;>
      rw [h] <;> simp [ApiResponse.mkSuccess, ApiResponse.mkError]
  · rcases sendTokenShape env req with ⟨d, h⟩ | ⟨m, h⟩ <;>
      rw [h] <;> simp [ApiResponse.mkSuccess, ApiResponse.mkError]

theorem strFilter_none (o : Option String) (h : strPresent o = false) :
    o.filter (fun s => !s.isEmpty) = none := by
  rcases o with _ | v <;> simp_all [strPresent, Option.filter]

theorem amtFilter_none (o : Option Nat) (h : amtPresent o = false) :
    o.filter (fun v => decide (0 < v)) = none := by
  rcases o with _ | v <;> simp_all [amtPresent, Option.filter]

/-- C1: for each operation with required fields, a missing required field
(string absent or empty, amount absent or not positive) yields status 400
with the uniform missing-fields error, for every environment and whatever
the other fields hold. -/
theorem c1_missing_fields (env : Env) :
    (∀ req : SignMessageRequest,
      strPresent req.message = false ∨ strPresent req.secret = false →
      sign_message env req = (400, ApiResponse.mkError "Missing required fields")) ∧
    (∀ req : VerifyMessageRequest,
      strPresent req.message = false ∨ strPresent req.signature = false ∨
        strPresent req.pubkey = false →
      verify_message env req = (400, ApiResponse.mkError "Missing required fields")) ∧
    (∀ req : CreateTokenRequest,
      strPresent req.mint_authority = false ∨ strPresent req.mint = false →
      create_token env req = (400, ApiResponse.mkError "Missing required fields")) ∧
    (∀ req : MintTokenRequest,
      strPresent req.mint = false ∨ strPresent req.destination = false ∨
        strPresent req.authority = false ∨ amtPresent req.amount = false →
      mint_token env req = (400, ApiResponse.mkError "Missing required fields")) ∧
    (∀ req : SendSolRequest,
      strPresent req.from_addr = false ∨ strPresent req.to_addr = false ∨
        amtPresent req.lamports = false →
      send_sol env req = (400, ApiResponse.mkError "Missing required fields")) ∧
    (∀ req : SendTokenRequest,
      strPresent req.destination = false ∨ strPresent req.mint = false ∨
        strPresent req.owner = false ∨ amtPresent req.amount = false →
      send_token env req = (400, ApiResponse.mkError "Missing required fields")) := by
  refine ⟨?_, ?_, ?_, ?_, ?_, ?_⟩
  · intro req h
    unfold sign_message
    repeat' split
    all_goals simp_all [strPresent]
  · intro req h
    unfold verify_message
    repeat' split
    all_goals simp_all [strPresent]
  · intro req h
    unfold create_token
    repeat' split
    all_goals simp_all [strPresent]
  · intro req h
    unfold mint_token
    rcases h with h | h | h | h
    · simp only [strFilter_none _ h]
    · simp only [strFilter_none _ h]
      all_goals (repeat' split) <;> simp_all
    · simp only [strFilter_none _ h]
      all_goals (repeat' split) <;> simp_all
    · simp only [amtFilter_none _ h]
      all_goals (repeat' split) <;> simp_all
  · intro req h
    unfold send_sol
    rcases h with h | h | h
    · simp only [strFilter_none _ h]
    · simp only [strFilter_none _ h]
      all_goals (repeat' split) <;> simp_all
    · simp only [amtFilter_none _ h]
      all_goals (repeat' split) <;> simp_all
  · intro req h
    unfold send_token
    repeat' split
    all_goals simp_all [strPresent, amtPresent]

/-- Witness for C1 at concrete inputs: an empty message (sign-message) and
a supplied zero amount (mint-token) each produce the uniform missing-fields
response with status 400. -/
theorem c1_missing_fields_witness :
    sign_message envT ⟨some "", some "validkey"⟩ =
      (400, ApiResponse.mkError "Missing required fields") ∧
    mint_token envT ⟨some "m", some "d", some "a", some 0⟩ =
      (400, ApiResponse.mkError "Missing required fields") :=
  ⟨(c1_missing_fields envT).1 _ (Or.inl (by decide)),
   (c1_missing_fields envT).2.2.2.1 _ (Or.inr (Or.inr (Or.inr (by decide))))⟩

/-- A 64-character string, whose byte decode in `envT` has signature length. -/
def s64str : String :=
  "aaaaaaaaaaaaaaaaaaaaaaaaaaaaaaaaaaaaaaaaaaaaaaaaaaaaaaaaaaaaaaaa"

/-- C4: when message, signature and pubkey are present and all decode
(valid address, valid base64, 64-byte signature), verify-message returns
status 200 and success:true, with the valid flag exactly the verifier's
answer on the decoded signature bytes, the address bytes and the UTF-8
bytes of the message; a cryptographically invalid signature thus yields
valid:false, never an error response. -/
theorem c4_verify_decoded_success (env : Env) (m s p : String)
    (hm : m.isEmpty = false) (hs : s.isEmpty = false) (hp : p.isEmpty = false)
    (pk : Pubkey) (hpk : env.parse_pubkey p = Except.ok pk)
    (bytes : List Nat) (hb : env.b64decode s = some bytes)
    (hlen : bytes.length = 64) :
    verify_message env ⟨some m, some s, some p⟩ =
      (200, ApiResponse.mkSuccess
        { valid := env.verifySig bytes pk.bytes (strBytes m)
          message := m
          pubkey := p }) := by
  unfold verify_message
  simp [hm, hs, hp, hpk, hb, signatureTryFrom, hlen]

/-- Witness for C4: a concrete fully-decodable request reaches verification
and returns 200 with the verifier's boolean. -/
theorem c4_verify_decoded_success_witness :
    verify_message envT ⟨some "hello", some s64str, some "p"⟩ =
      (200, ApiResponse.mkSuccess ⟨true, "hello", "p"⟩) :=
  c4_verify_decoded_success envT "hello" s64str "p" (by decide) (by decide)
    (by decide) ⟨[1]⟩ (by rfl) (List.replicate 64 7) (by decide) (by decide)

/-- C5: with a present non-empty message and a secret decoding to a
keypair, sign-message signs exactly the UTF-8 bytes of the message and
returns success with the base64 encoding of the raw signature bytes, the
address form of the keypair's public key, and the message echoed
unchanged. -/
theorem c5_sign_success (env : Env) (m s : String)
    (hm : m.isEmpty = false) (hs : s.isEmpty = false)
    (kp : Keypair) (hkp : env.keypair_from_base58 s = Except.ok kp) :
    sign_message env ⟨some m, some s⟩ =
      (200, ApiResponse.mkSuccess
        { signature := env.b64encode (env.signMsg kp (strBytes m))
          public_key := env.pubkeyToString (env.keypairPubkey kp)
          message := m }) := by
  unfold sign_message
  simp [hm, hs, hkp]

/-- Witness for C5 at a concrete request. -/
theorem c5_sign_success_witness :
    sign_message envT ⟨some "hello", some "key"⟩ =
      (200, ApiResponse.mkSuccess ⟨"sixFour", "1", "hello"⟩) :=
  c5_sign_success envT "hello" "key" (by decide) (by decide) ⟨[3]⟩ (by rfl)

/-- C6: with present non-empty from and to that decode to addresses and a
strictly positive lamports, send-sol always returns 200 and success — the
system-program transfer builder has no failure branch — and the response
carries the instruction's program id as a string, its accounts as address
strings only, and its payload base64-encoded. -/
theorem c6_send_sol_success (env : Env) (f t : String) (l : Nat)
    (hf : f.isEmpty = false) (ht : t.isEmpty = false) (hl : 0 < l)
    (fpk tpk : Pubkey)
    (hfp : env.parse_pubkey f = Except.ok fpk)
    (htp : env.parse_pubkey t = Except.ok tpk) :
    send_sol env ⟨some f, some t, some l⟩ =
      (200, ApiResponse.mkSuccess
        { program_id := env.pubkeyToString (env.system_transfer fpk tpk l).program_id
          accounts := (env.system_transfer fpk tpk l).accounts.map
            (fun a => env.pubkeyToString a.pubkey)
          instruction_data := env.b64encode (env.system_transfer fpk tpk l).data }) := by
  unfold send_sol sendSolBuild
  simp [Option.filter, hf, ht, hl, hfp, htp]

/-- Witness for C6 at a concrete request. -/
theorem c6_send_sol_success_witness :
    send_sol envT ⟨some "f", some "t", some 5⟩ =
      (200, ApiResponse.mkSuccess ⟨"1", [], "sixFour"⟩) :=
  c6_send_sol_success envT "f" "t" 5 (by decide) (by decide) (by decide)
    ⟨[1]⟩ ⟨[1]⟩ (by rfl) (by rfl)

/-- C7: a supplied decimals of zero passes create-token's validation and
control proceeds to the decode-and-build stage, while a supplied zero
amount in mint-token, send-sol and send-token is rejected exactly like a
missing field. -/
theorem c7_decimals_zero_accepted (env : Env) :
    (∀ a m : String, a.isEmpty = false → m.isEmpty = false →
      create_token env ⟨some a, some m, some 0⟩ = createTokenBuild env a m 0) ∧
    (∀ mi de au : Option String,
      mint_token env ⟨mi, de, au, some 0⟩ =
        (400, ApiResponse.mkError "Missing required fields")) ∧
    (∀ f t : Option String,
      send_sol env ⟨f, t, some 0⟩ =
        (400, ApiResponse.mkError "Missing required fields")) ∧
    (∀ de mi ow : Option String,
      send_token env ⟨de, mi, ow, some 0⟩ =
        (400, ApiResponse.mkError "Missing required fields")) := by
  refine ⟨?_, ?_, ?_, ?_⟩
  · intro a m ha hm
    unfold create_token
    simp [ha, hm]
  · intro mi de au
    unfold mint_token
    simp only [amtFilter_none (some 0) (by decide)]
    all_goals (repeat' split) <;> simp_all
  · intro f t
    unfold send_sol
    simp only [amtFilter_none (some 0) (by decide)]
    all_goals (repeat' split) <;> simp_all
  · intro de mi ow
    unfold send_token
    repeat' split
    all_goals simp_all

/-- Witness for C7: decimals zero reaches the build stage and succeeds in
the concrete environment, while a zero amount at mint-token is rejected
with the missing-fields error. -/
theorem c7_decimals_zero_accepted_witness :
    create_token envT ⟨some "a", some "m", some 0⟩ =
      (200, ApiResponse.mkSuccess ⟨"1", [], "sixFour"⟩) ∧
    mint_token envT ⟨some "m", some "d", some "a", some 0⟩ =
      (400, ApiResponse.mkError "Missing required fields") :=
  ⟨(c7_decimals_zero_accepted envT).1 "a" "m" (by decide) (by decide),
   (c7_decimals_zero_accepted envT).2.1 (some "m") (some "d") (some "a")⟩

/-- C8: with validated inputs, create-token invokes the mint-initialization
builder with the decoded mintAuthority as both the mint authority and the
freeze authority (the freeze argument is Some of that very key), together
with the mint address and the supplied decimals; the handler's outcome is
exactly the outcome of that call. -/
theorem c8_freeze_is_mint_authority (env : Env) (a m : String) (d : Nat)
    (ha : a.isEmpty = false) (hm : m.isEmpty = false)
    (apk mpk : Pubkey)
    (hap : env.parse_pubkey a = Except.ok apk)
    (hmp : env.parse_pubkey m = Except.ok mpk) :
    (∀ inst, env.initialize_mint env.spl_token_id mpk apk (some apk) d = Except.ok inst →
      create_token env ⟨some a, some m, some d⟩ =
        (200, ApiResponse.mkSuccess (instruction_to_response env inst))) ∧
    (env.initialize_mint env.spl_token_id mpk apk (some apk) d = Except.error () →
      create_token env ⟨some a, some m, some d⟩ =
        (400, ApiResponse.mkError "Failed to create token instruction")) := by
  constructor
  · intro inst hbuild
    unfold create_token createTokenBuild
    simp [ha, hm, hap, hmp, hbuild]
  · intro hbuild
    unfold create_token createTokenBuild
    simp [ha, hm, hap, hmp, hbuild]

/-- Witness for C8 at a concrete request in the concrete environment. -/
theorem c8_freeze_is_mint_authority_witness :
    create_token envT ⟨some "a", some "m", some 3⟩ =
      (200, ApiResponse.mkSuccess ⟨"1", [], "sixFour"⟩) :=
  (c8_freeze_is_mint_authority envT "a" "m" 3 (by decide) (by decide)
    ⟨[1]⟩ ⟨[1]⟩ (by rfl) (by rfl)).1 ⟨⟨[9]⟩, [], [5]⟩ (by rfl)

/-- C9: with the three fields present and a valid pubkey, the signature
string is decoded in two stages with distinct errors — base64 failure
gives the invalid-base64 error, and a wrong decoded byte length gives the
invalid-signature-format error, both with status 400. -/
theorem c9_signature_two_stage (env : Env) (m s p : String)
    (hm : m.isEmpty = false) (hs : s.isEmpty = false) (hp : p.isEmpty = false)
    (pk : Pubkey) (hpk : env.parse_pubkey p = Except.ok pk) :
    (env.b64decode s = none →
      verify_message env ⟨some m, some s, some p⟩ =
        (400, ApiResponse.mkError "Invalid base64 signature")) ∧
    (∀ bytes, env.b64decode s = some bytes → bytes.length ≠ 64 →
      verify_message env ⟨some m, some s, some p⟩ =
        (400, ApiResponse.mkError "Invalid signature format")) := by
  constructor
  · intro hb
    unfold verify_message
    simp [hm, hs, hp, hpk, hb]
  · intro bytes hb hlen
    unfold verify_message
    simp [hm, hs, hp, hpk, hb, signatureTryFrom, hlen]

/-- Witness for C9: one concrete request per stage — a base64-undecodable
signature, and a decodable one of the wrong byte length. -/
theorem c9_signature_two_stage_witness :
    verify_message envT ⟨some "msg", some "!", some "p"⟩ =
      (400, ApiResponse.mkError "Invalid base64 signature") ∧
    verify_message envT ⟨some "msg", some "ab", some "p"⟩ =
      (400, ApiResponse.mkError "Invalid signature format") :=
  ⟨(c9_signature_two_stage envT "msg" "!" "p" (by decide) (by decide) (by decide)
      ⟨[1]⟩ (by rfl)).1 (by rfl),
   (c9_signature_two_stage envT "msg" "ab" "p" (by decide) (by decide) (by decide)
      ⟨[1]⟩ (by rfl)).2 (List.replicate 2 7) (by rfl) (by decide)⟩

/-- C10: with validated inputs, mint-token invokes the mint-to builder with
a fixed empty multi-signer list; the handler's outcome is exactly the
outcome of that call with the empty signer set. -/
theorem c10_mint_empty_signers (env : Env) (mi de au : String) (amt : Nat)
    (hmi : mi.isEmpty = false) (hde : de.isEmpty = false) (hau : au.isEmpty = false)
    (hamt : 0 < amt)
    (mpk dpk apk : Pubkey)
    (hm : env.parse_pubkey mi = Except.ok mpk)
    (hd : env.parse_pubkey de = Except.ok dpk)
    (ha : env.parse_pubkey au = Except.ok apk) :
    (∀ inst, env.mint_to env.spl_token_id mpk dpk apk [] amt = Except.ok inst →
      mint_token env ⟨some mi, some de, some au, some amt⟩ =
        (200, ApiResponse.mkSuccess (instruction_to_response env inst))) ∧
    (env.mint_to env.spl_token_id mpk dpk apk [] amt = Except.error () →
      mint_token env ⟨some mi, some de, some au, some amt⟩ =
        (400, ApiResponse.mkError "Failed to create mint instruction")) := by
  constructor
  · intro inst hbuild
    unfold mint_token mintTokenBuild
    simp [Option.filter, hmi, hde, hau, hamt, hm, hd, ha, hbuild]
  · intro hbuild
    unfold mint_token mintTokenBuild
    simp [Option.filter, hmi, hde, hau, hamt, hm, hd, ha, hbuild]

/-- Witness for C10 at a concrete request in the concrete environment. -/
theorem c10_mint_empty_signers_witness :
    mint_token envT ⟨some "m", some "d", some "a", some 5⟩ =
      (200, ApiResponse.mkSuccess ⟨"1", [], "sixFour"⟩) :=
  (c10_mint_empty_signers envT "m" "d" "a" 5 (by decide) (by decide) (by decide)
    (by decide) ⟨[1]⟩ ⟨[1]⟩ ⟨[1]⟩ (by rfl) (by rfl) (by rfl)).1
    ⟨⟨[9]⟩, [], [6]⟩ (by rfl)
